import Mathlib

/-!
Shallow embedding of tapir/coop/views/shareowner.py (member administration
views of the tapir cooperative management system) and proofs about the
behaviour of its share-owner / share-ownership operations.
-/

namespace Tapir

/-- Calendar date, compared lexicographically (year, month, day). -/
structure Date where
  year : Nat
  month : Nat
  day : Nat
deriving DecidableEq, Repr

def Date.le (a b : Date) : Bool :=
  a.year < b.year ||
    (a.year == b.year &&
      (a.month < b.month || (a.month == b.month && a.day ≤ b.day)))

/-- Identity fields of a member: name, address and contact info
(tapir.utils.models user-info field set). -/
structure UserInfo where
  firstName : String
  lastName : String
  street : String
  postcode : String
  city : String
  email : String
  phoneNumber : String
deriving DecidableEq, Repr

/-- One purchased equity share unit (coop.models.ShareOwnership). -/
structure ShareOwnership where
  id : Nat
  ownerId : Nat
  amountPaid : Int
  startDate : Date
  endDate : Option Date
deriving DecidableEq, Repr

/-- Modelled from the spec: a ShareOwnership is active as of date D iff
start_date ≤ D and (end_date is null or end_date ≥ D). The model class is
not part of the source excerpt. -/
def ShareOwnership.isActive (so : ShareOwnership) (d : Date) : Bool :=
  Date.le so.startDate d &&
    (match so.endDate with
     | none => true
     | some e => Date.le d e)

/-- A member holding equity shares (coop.models.ShareOwner). `userId` is the
optional link to a TapirUser login account. -/
structure ShareOwner where
  id : Nat
  isCompany : Bool
  isInvesting : Bool
  attendedWelcomeSession : Bool
  userId : Option Nat
  info : UserInfo
deriving DecidableEq, Repr

/-- A login account (accounts.models.TapirUser). -/
structure TapirUser where
  id : Nat
  username : String
  info : UserInfo
deriving DecidableEq, Repr

/-- Django permission strings used by the views of the excerpt. -/
inductive Permission
  | coopManage
  | coopAdmin
  | accountsManage
  | welcomedeskView
deriving DecidableEq, Repr

/-- The authenticated request user with the permissions granted to them. -/
structure Actor where
  id : Nat
  perms : List Permission
deriving DecidableEq, Repr

def Actor.hasPerm (a : Actor) (p : Permission) : Bool :=
  a.perms.contains p

/-- Modelled from the spec: tapir.log.util.freeze_for_log freezes the
editable fields of a ShareOwnership (amount paid, dates) into an immutable
before/after snapshot; the helper is not part of the source excerpt. -/
structure FrozenShareOwnership where
  amountPaid : Int
  startDate : Date
  endDate : Option Date
deriving DecidableEq, Repr

def freeze_for_log (so : ShareOwnership) : FrozenShareOwnership :=
  ⟨so.amountPaid, so.startDate, so.endDate⟩

/-- Payload of an audit log entry for the operations of the excerpt. -/
inductive LogDetail
  | deleteShareOwnership (snapshot : ShareOwnership)
  | updateShareOwnership (shareOwnershipId : Nat)
      (oldFrozen newFrozen : FrozenShareOwnership)
  | createShareOwnerships (numShares : Nat) (startDate : Date)
      (endDate : Option Date)
deriving DecidableEq, Repr

/-- An audit log entry (tapir.log.models.LogEntry): actor, subject
references (tapir user and/or share owner) and operation payload. -/
structure LogEntry where
  actorId : Nat
  userId : Option Nat
  shareOwnerId : Option Nat
  detail : LogDetail
deriving DecidableEq, Repr

/-- Accounting recap row written on batch share creation
(coop.models.ExtraSharesForAccountingRecap). -/
structure ExtraSharesRecap where
  memberId : Nat
  numberOfShares : Nat
  date : Date
deriving DecidableEq, Repr

/-- The persistent store the views mutate. A view operation is a function
`DBState → result × DBState`; a transaction.atomic block is embedded as a
single all-or-nothing state transition. -/
structure DBState where
  owners : List ShareOwner
  ownerships : List ShareOwnership
  users : List TapirUser
  logEntries : List LogEntry
  recaps : List ExtraSharesRecap
deriving DecidableEq, Repr

/-- Permission required by the share_ownership_delete view
(decorator `permission_required("coop.admin")`). -/
def share_ownership_delete_required_permission : Permission := .coopAdmin

/-- Permission required by ShareOwnershipUpdateView
(`permission_required = "coop.manage"`). -/
def shareOwnershipUpdateView_required_permission : Permission := .coopManage

/-- Modelled from the spec: the permission hierarchy. The spec (and the code
comment on share_ownership_delete) places coop.admin on a higher tier than
the ordinary coop.manage edit permission. -/
def Permission.tier : Permission → Nat
  | .coopAdmin => 2
  | _ => 1

inductive DeleteResult
  | permissionDenied
  | notFound
  | redirect (ownerId : Nat)
deriving DecidableEq, Repr

/-- share_ownership_delete view: permission check, 404 lookup, then one
atomic transaction that saves a DeleteShareOwnershipLogEntry holding the
full pre-delete snapshot and deletes the ShareOwnership. -/
def share_ownership_delete (actor : Actor) (pk : Nat) (s : DBState) :
    DeleteResult × DBState :=
  if !(actor.hasPerm share_ownership_delete_required_permission) then
    (.permissionDenied, s)
  else
    match s.ownerships.find? (fun so => so.id == pk) with
    | none => (.notFound, s)
    | some so =>
        (.redirect so.ownerId,
         { s with
            logEntries := s.logEntries ++
              [⟨actor.id, none, some so.ownerId, .deleteShareOwnership so⟩],
            ownerships := s.ownerships.filter (fun x => !(x.id == pk)) })

/-- Data of the ShareOwnershipForm: the editable fields of a
ShareOwnership. -/
structure ShareOwnershipFormData where
  amountPaid : Int
  startDate : Date
  endDate : Option Date
deriving DecidableEq, Repr

/-- Saving a bound ShareOwnershipForm writes the form fields onto the
instance. -/
def applyForm (so : ShareOwnership) (f : ShareOwnershipFormData) :
    ShareOwnership :=
  { so with amountPaid := f.amountPaid, startDate := f.startDate,
            endDate := f.endDate }

/-- ShareOwnershipUpdateView.form_valid: inside one atomic transaction the
instance is saved, the new state is frozen, and an
UpdateShareOwnershipLogEntry is written only when the frozen old state
differs from the frozen new state. `so` is the instance as frozen by
UpdateViewLogMixin before the edit. -/
def shareOwnershipUpdate_form_valid (actor : Actor) (so : ShareOwnership)
    (form : ShareOwnershipFormData) (s : DBState) : DBState :=
  let oldFrozen := freeze_for_log so
  let newSo := applyForm so form
  let s1 := { s with
    ownerships := s.ownerships.map (fun x => if x.id == so.id then newSo else x) }
  let newFrozen := freeze_for_log newSo
  if oldFrozen = newFrozen then s1
  else
    { s1 with
      logEntries := s1.logEntries ++
        [⟨actor.id, none, some so.ownerId,
          .updateShareOwnership so.id oldFrozen newFrozen⟩] }

/-- Data of the ShareOwnershipCreateMultipleForm. -/
structure CreateMultipleFormData where
  num_shares : Nat
  start_date : Date
  end_date : Option Date
deriving DecidableEq, Repr

/-- Outcome of a mutating workflow that also sends a notification email. -/
inductive MutationOutcome
  | committedEmailSent
  | committedEmailFailed
  | rolledBack
deriving DecidableEq, Repr

/-- ShareOwnershipCreateMultipleView.form_valid: one atomic transaction
writes the CreateShareOwnershipsLogEntry, creates num_shares ShareOwnership
rows and the accounting recap row; the confirmation email is sent after the
transaction block, so a failing send leaves the committed mutation in
place. `emailFails` models whether the email dispatch raises. -/
def shareOwnershipCreateMultiple_form_valid (actor : Actor)
    (shareOwner : ShareOwner) (form : CreateMultipleFormData) (today : Date)
    (nextId : Nat) (emailFails : Bool) (s : DBState) :
    MutationOutcome × DBState :=
  let s1 := { s with
    logEntries := s.logEntries ++
      [⟨actor.id, shareOwner.userId, some shareOwner.id,
        .createShareOwnerships form.num_shares form.start_date form.end_date⟩],
    ownerships := s.ownerships ++
      (List.range form.num_shares).map (fun i =>
        { id := nextId + i, ownerId := shareOwner.id, amountPaid := 0,
          startDate := form.start_date, endDate := form.end_date }),
    recaps := s.recaps ++ [⟨shareOwner.id, form.num_shares, today⟩] }
  if emailFails then (.committedEmailFailed, s1) else (.committedEmailSent, s1)

/-- Fields exposed by the CreateUserFromShareOwnerView form. -/
structure UserFormData where
  firstName : String
  lastName : String
  username : String
deriving DecidableEq, Repr

/-- Modelled from the spec: tapir.utils.models.copy_user_info copies the
identity fields from the owner onto the fresh account; the helper is not
part of the source excerpt. -/
def copy_user_info (src : UserInfo) : UserInfo := src

/-- Modelled from the spec: ShareOwner.blank_info_fields blanks every
owner-side identity field after the linked account takes them over; the
model method is not part of the source excerpt. -/
def blankUserInfo : UserInfo :=
  { firstName := "", lastName := "", street := "", postcode := "",
    city := "", email := "", phoneNumber := "" }

inductive DispatchResult
  | forbidden (msg : String)
  | proceed
deriving DecidableEq, Repr

/-- CreateUserFromShareOwnerView.dispatch: reject when the owner already
has a linked account or is a company, before any form handling. -/
def createUserFromShareOwner_dispatch (owner : ShareOwner) : DispatchResult :=
  if owner.userId.isSome then .forbidden "This ShareOwner already has a User"
  else if owner.isCompany then .forbidden "This ShareOwner is a company"
  else .proceed

/-- The TapirUser instance saved by CreateUserFromShareOwnerView:
get_form_kwargs copies the owner's info onto a fresh instance, then the
bound form writes first_name, last_name and username over it. -/
def mkNewUser (owner : ShareOwner) (form : UserFormData) (uid : Nat) :
    TapirUser :=
  { id := uid, username := form.username,
    info := { copy_user_info owner.info with
                firstName := form.firstName, lastName := form.lastName } }

/-- CreateUserFromShareOwnerView.form_valid: one atomic transaction saves
the new TapirUser, links it to the owner, blanks the owner's info fields,
reassigns the owner's log entries to the user, and sends the
account-created email still inside the transaction block — so a failing
send rolls the whole mutation back. -/
def createUserFromShareOwner_form_valid (actor : Actor) (owner : ShareOwner)
    (form : UserFormData) (uid : Nat) (emailFails : Bool) (s : DBState) :
    MutationOutcome × DBState :=
  let user := mkNewUser owner form uid
  let committed : DBState :=
    { s with
      users := s.users ++ [user],
      owners := s.owners.map (fun o =>
        if o.id == owner.id then
          { o with userId := some uid, info := blankUserInfo }
        else o),
      logEntries := s.logEntries.map (fun e =>
        if e.shareOwnerId == some owner.id then
          { e with userId := some uid, shareOwnerId := none }
        else e) }
  if emailFails then (.rolledBack, s) else (.committedEmailSent, committed)

inductive CreateUserResult
  | notFound
  | forbidden (msg : String)
  | outcome (o : MutationOutcome)
deriving DecidableEq, Repr

/-- The full request to CreateUserFromShareOwnerView: owner lookup,
dispatch guards, then form_valid. -/
def createUserFromShareOwner_request (actor : Actor) (ownerPk : Nat)
    (form : UserFormData) (uid : Nat) (emailFails : Bool) (s : DBState) :
    CreateUserResult × DBState :=
  match s.owners.find? (fun o => o.id == ownerPk) with
  | none => (.notFound, s)
  | some owner =>
      match createUserFromShareOwner_dispatch owner with
      | .forbidden msg => (.forbidden msg, s)
      | .proceed =>
          let r := createUserFromShareOwner_form_valid actor owner form uid
            emailFails s
          (.outcome r.1, r.2)

/-- Nonempty and all characters decimal digits. -/
def digitsOnly (l : List Char) : Bool :=
  !l.isEmpty && l.all Char.isDigit

/-- Decimal value of a digit sequence. -/
def natOfDigits (l : List Char) : Nat :=
  l.foldl (fun n c => n * 10 + (c.toNat - 48)) 0

/-- Python str.isdigit for the ASCII strings of the model. -/
def pyIsDigit (s : String) : Bool :=
  digitsOnly s.data

/-- Python int() on a digit string: decimal value. -/
def strToNat (s : String) : Nat :=
  natOfDigits s.data

/-- Split a character sequence at every occurrence of `sep`. -/
def splitCharsOn (sep : Char) : List Char → List (List Char)
  | [] => [[]]
  | c :: rest =>
      match splitCharsOn sep rest, c == sep with
      | r, true => [] :: r
      | [], false => [[c]]
      | h :: t, false => (c :: h) :: t

/-- Does `needle` occur at the head of `haystack`? -/
def matchesAt : List Char → List Char → Bool
  | [], _ => true
  | _ :: _, [] => false
  | a :: as, b :: bs => a == b && matchesAt as bs

/-- Does `needle` occur anywhere in `haystack`? -/
def containsSub (needle : List Char) : List Char → Bool
  | [] => needle.isEmpty
  | c :: rest => matchesAt needle (c :: rest) || containsSub needle rest

/-- Case-insensitive substring test. -/
def containsCI (haystack needle : String) : Bool :=
  containsSub (needle.data.map Char.toLower) (haystack.data.map Char.toLower)

/-- Modelled from the spec: ShareOwner.get_display_name, the member's
display name built from the identity fields; the model method is not part
of the source excerpt. -/
def ShareOwner.displayName (o : ShareOwner) : String :=
  o.info.firstName ++ " " ++ o.info.lastName

/-- Modelled from the spec: ShareOwnerQuerySet.with_name performs a
fuzzy/substring, case-insensitive name match; the queryset method is not
part of the source excerpt. -/
def with_name (qs : List ShareOwner) (v : String) : List ShareOwner :=
  qs.filter (fun o => containsCI o.displayName v)

/-- QuerySet.distinct over the list model. -/
def qsDistinct (qs : List ShareOwner) : List ShareOwner :=
  qs.dedup

/-- ShareOwnerFilter.display_name_filter: a purely numeric search value is
an exact member-id match, anything else a name match. -/
def display_name_filter (qs : List ShareOwner) (value : String) :
    List ShareOwner :=
  if pyIsDigit value then qs.filter (fun o => o.id == strToNat value)
  else qsDistinct (with_name qs value)

/-- ShareOwnerFilterWelcomeDesk.display_name_filter: an empty value yields
queryset.none(); a numeric value an exact id match; otherwise a name
match. -/
def welcomeDesk_display_name_filter (qs : List ShareOwner) (value : String) :
    List ShareOwner :=
  if value = "" then []
  else if pyIsDigit value then qs.filter (fun o => o.id == strToNat value)
  else with_name qs value

/-- GET parameters of the document endpoints. -/
structure HttpGet where
  num_shares : Option String
  date : Option String
deriving DecidableEq, Repr

/-- datetime.strptime(s, d.m.Y).date(): three dot-separated numeric
components with day and month in calendar range. -/
def parseDMY (s : String) : Option Date :=
  match splitCharsOn '.' s.data with
  | [d, m, y] =>
      if digitsOnly d && digitsOnly m && digitsOnly y then
        let dn := natOfDigits d
        let mn := natOfDigits m
        let yn := natOfDigits y
        if 1 ≤ dn && dn ≤ 31 && 1 ≤ mn && mn ≤ 12 then
          some ⟨yn, mn, dn⟩
        else none
      else none
  | _ => none

/-- Modelled from the spec: ShareOwner.get_active_share_ownerships, the
owner's ShareOwnership records active as of the reference date; the model
method is not part of the source excerpt. -/
def get_active_share_ownerships (owner : ShareOwner)
    (ownerships : List ShareOwnership) (today : Date) :
    List ShareOwnership :=
  ownerships.filter (fun so => so.ownerId == owner.id && so.isActive today)

/-- How shareowner_membership_confirmation obtained its num_shares
argument: the raw request parameter, or the active-ownership count. -/
inductive NumSharesValue
  | fromRequest (s : String)
  | fromActiveCount (n : Nat)
deriving DecidableEq, Repr

/-- shareowner_membership_confirmation: num_shares from the request when
present, otherwise the count of currently active ShareOwnership records;
date from the request (parsed d.m.Y) when present, otherwise today. Returns
the arguments handed to the PDF generator, or none when strptime raises. -/
def shareowner_membership_confirmation (owner : ShareOwner)
    (ownerships : List ShareOwnership) (today : Date) (params : HttpGet) :
    Option (NumSharesValue × Date) :=
  let ns := match params.num_shares with
    | some v => NumSharesValue.fromRequest v
    | none =>
        NumSharesValue.fromActiveCount
          (get_active_share_ownerships owner ownerships today).length
  match params.date with
  | some ds =>
      match parseDMY ds with
      | some d => some (ns, d)
      | none => none
  | none => some (ns, today)

inductive ExtraSharesResult
  | validationError (msg : String)
  | dateFormatError
  | document (numShares : String) (date : Date)
deriving DecidableEq, Repr

/-- shareowner_extra_shares_confirmation: hard-fails with a ValidationError
when num_shares or date is missing, before any PDF is generated; no
defaults are substituted. -/
def shareowner_extra_shares_confirmation (params : HttpGet) :
    ExtraSharesResult :=
  match params.num_shares with
  | none => .validationError "Missing parameter : num_shares"
  | some ns =>
      match params.date with
      | none => .validationError "Missing parameter : date"
      | some ds =>
          match parseDMY ds with
          | some d => .document ns d
          | none => .dateFormatError

inductive ListViewResponse
  | redirectTo (ownerId : Nat)
  | renderList (owners : List ShareOwner)
deriving DecidableEq, Repr

/-- ShareOwnerListView.get: when the filtered object_list holds exactly one
owner, redirect to that owner's absolute url instead of rendering the
list. -/
def shareOwnerListView_get (filtered : List ShareOwner) : ListViewResponse :=
  if filtered.length == 1 then
    match filtered.head? with
    | some o => .redirectTo o.id
    | none => .renderList filtered
  else .renderList filtered

/-! Concrete sample data used to instantiate the theorems below. -/

def exInfo : UserInfo :=
  { firstName := "Jane", lastName := "Smith", street := "Main St 1",
    postcode := "10115", city := "Berlin", email := "jane@example.com",
    phoneNumber := "030123" }

def exOwner : ShareOwner :=
  { id := 42, isCompany := false, isInvesting := false,
    attendedWelcomeSession := false, userId := none, info := exInfo }

def exCompanyOwner : ShareOwner :=
  { id := 43, isCompany := true, isInvesting := false,
    attendedWelcomeSession := false, userId := none, info := exInfo }

def exLinkedOwner : ShareOwner :=
  { id := 44, isCompany := false, isInvesting := false,
    attendedWelcomeSession := true, userId := some 5, info := exInfo }

def exOwnership : ShareOwnership :=
  { id := 7, ownerId := 42, amountPaid := 100,
    startDate := ⟨2023, 1, 1⟩, endDate := none }

def exAdmin : Actor := ⟨1, [.coopAdmin, .coopManage]⟩

def exManager : Actor := ⟨2, [.coopManage]⟩

def exState : DBState :=
  { owners := [exOwner], ownerships := [exOwnership], users := [],
    logEntries := [], recaps := [] }

def exLinkedState : DBState :=
  { owners := [exLinkedOwner, exCompanyOwner], ownerships := [], users := [],
    logEntries := [], recaps := [] }

def exFormSame : ShareOwnershipFormData :=
  { amountPaid := 100, startDate := ⟨2023, 1, 1⟩, endDate := none }

def exFormChanged : ShareOwnershipFormData :=
  { amountPaid := 250, startDate := ⟨2023, 1, 1⟩, endDate := none }

def exUserForm : UserFormData :=
  { firstName := "Jane", lastName := "Smith", username := "jane.smith" }

/-- The empty substring occurs in every string. -/
theorem containsSub_nil_left (l : List Char) : containsSub [] l = true := by
  cases l <;> simp [containsSub, matchesAt]

/-- The empty search value matches every display name. -/
theorem containsCI_empty_value (h : String) : containsCI h "" = true := by
  have hd : ("" : String).data = [] := rfl
  simp [containsCI, hd, containsSub_nil_left]

/-- Claim C1: deleting a ShareOwnership requires the coop.admin permission,
a strictly higher tier than the coop.manage permission guarding ordinary
edits; a delete request on an existing ShareOwnership appends, in the same
atomic state transition as the removal, exactly one audit log entry holding
the full pre-delete snapshot; and a failed request (missing permission or
unknown pk) leaves the state entirely unchanged — deletion and audit write
happen together or not at all. -/
theorem claim_C1 :
    Permission.tier share_ownership_delete_required_permission >
      Permission.tier shareOwnershipUpdateView_required_permission
    ∧ (∀ (actor : Actor) (pk : Nat) (s : DBState) (so : ShareOwnership),
        actor.hasPerm share_ownership_delete_required_permission = true →
        s.ownerships.find? (fun x => x.id == pk) = some so →
        (share_ownership_delete actor pk s).2.logEntries =
            s.logEntries ++
              [⟨actor.id, none, some so.ownerId, .deleteShareOwnership so⟩]
          ∧ (share_ownership_delete actor pk s).2.ownerships =
              s.ownerships.filter (fun x => !(x.id == pk)))
    ∧ (∀ (actor : Actor) (pk : Nat) (s : DBState),
        actor.hasPerm share_ownership_delete_required_permission = false ∨
          s.ownerships.find? (fun x => x.id == pk) = none →
        (share_ownership_delete actor pk s).2 = s) := by
  refine ⟨by decide, ?_, ?_⟩
  · intro actor pk s so hperm hfind
    simp [share_ownership_delete, hperm, hfind]
  · intro actor pk s h
    rcases h with h | h
    · simp [share_ownership_delete, h]
    · cases hp : actor.hasPerm share_ownership_delete_required_permission <;>
        simp [share_ownership_delete, hp, h]

/-- Witness for claim C1 at a concrete state: the admin deletes
ShareOwnership 7 and exactly the snapshot log entry is appended. -/
theorem claim_C1_witness :
    (share_ownership_delete exAdmin 7 exState).2.logEntries =
      exState.logEntries ++
        [⟨exAdmin.id, none, some exOwnership.ownerId,
          .deleteShareOwnership exOwnership⟩] :=
  (claim_C1.2.1 exAdmin 7 exState exOwnership (by decide) (by decide)).1

/-- Claim C2: an edit of a ShareOwnership writes an audit log entry iff the
frozen before-snapshot differs from the frozen after-snapshot — identical
snapshots append nothing, a changed snapshot appends exactly one entry
holding both snapshots. -/
theorem claim_C2 :
    ∀ (actor : Actor) (so : ShareOwnership) (form : ShareOwnershipFormData)
      (s : DBState),
      (freeze_for_log (applyForm so form) = freeze_for_log so →
        (shareOwnershipUpdate_form_valid actor so form s).logEntries =
          s.logEntries)
      ∧ (freeze_for_log (applyForm so form) ≠ freeze_for_log so →
        (shareOwnershipUpdate_form_valid actor so form s).logEntries =
          s.logEntries ++
            [⟨actor.id, none, some so.ownerId,
              .updateShareOwnership so.id (freeze_for_log so)
                (freeze_for_log (applyForm so form))⟩]) := by
  intro actor so form s
  constructor
  · intro h
    simp [shareOwnershipUpdate_form_valid, h]
  · intro h
    simp [shareOwnershipUpdate_form_valid, Ne.symm h]

/-- Witness for claim C2 at concrete states: the identical edit appends no
log entry and the changed edit appends one. -/
theorem claim_C2_witness :
    (shareOwnershipUpdate_form_valid exManager exOwnership exFormSame
        exState).logEntries = exState.logEntries
    ∧ (shareOwnershipUpdate_form_valid exManager exOwnership exFormChanged
        exState).logEntries =
      exState.logEntries ++
        [⟨exManager.id, none, some exOwnership.ownerId,
          .updateShareOwnership exOwnership.id (freeze_for_log exOwnership)
            (freeze_for_log (applyForm exOwnership exFormChanged))⟩] :=
  ⟨(claim_C2 exManager exOwnership exFormSame exState).1 (by decide),
   (claim_C2 exManager exOwnership exFormChanged exState).2 (by decide)⟩

/-- Claim C3: a request to the extra-shares confirmation endpoint with the
num_shares parameter absent or the date parameter absent fails with a
validation error and never produces a document — no default value is
substituted. -/
theorem claim_C3 :
    ∀ (params : HttpGet),
      params.num_shares = none ∨ params.date = none →
      (∃ msg, shareowner_extra_shares_confirmation params =
          ExtraSharesResult.validationError msg)
      ∧ ∀ ns d, shareowner_extra_shares_confirmation params ≠
          ExtraSharesResult.document ns d := by
  intro params h
  have hval : ∃ msg, shareowner_extra_shares_confirmation params =
      ExtraSharesResult.validationError msg := by
    rcases h with h | h
    · exact ⟨"Missing parameter : num_shares",
        by simp [shareowner_extra_shares_confirmation, h]⟩
    · cases hn : params.num_shares with
      | none =>
          exact ⟨"Missing parameter : num_shares",
            by simp [shareowner_extra_shares_confirmation, hn]⟩
      | some ns =>
          exact ⟨"Missing parameter : date",
            by simp [shareowner_extra_shares_confirmation, hn, h]⟩
  refine ⟨hval, ?_⟩
  intro ns d hdoc
  rcases hval with ⟨msg, hmsg⟩
  rw [hmsg] at hdoc
  exact ExtraSharesResult.noConfusion hdoc

/-- Witness for claim C3: a request carrying a date but no num_shares is
rejected with a validation error. -/
theorem claim_C3_witness :
    ∃ msg, shareowner_extra_shares_confirmation ⟨none, some "01.02.2023"⟩ =
      ExtraSharesResult.validationError msg :=
  (claim_C3 ⟨none, some "01.02.2023"⟩ (Or.inl rfl)).1

/-- Claim C5: a request to grant a user account to a ShareOwner that is
already linked to an account or is a company is rejected by dispatch with a
403 and the state is returned entirely unchanged — no account is created
and the owner is not mutated. -/
theorem claim_C5 :
    ∀ (actor : Actor) (ownerPk : Nat) (form : UserFormData) (uid : Nat)
      (emailFails : Bool) (s : DBState) (owner : ShareOwner),
      s.owners.find? (fun o => o.id == ownerPk) = some owner →
      owner.userId.isSome = true ∨ owner.isCompany = true →
      ∃ msg,
        createUserFromShareOwner_request actor ownerPk form uid emailFails s =
          (CreateUserResult.forbidden msg, s) := by
  intro actor ownerPk form uid emailFails s owner hfind h
  rcases h with h | h
  · exact ⟨"This ShareOwner already has a User",
      by simp [createUserFromShareOwner_request, hfind,
               createUserFromShareOwner_dispatch, h]⟩
  · cases hu : owner.userId.isSome with
    | true =>
        exact ⟨"This ShareOwner already has a User",
          by simp [createUserFromShareOwner_request, hfind,
                   createUserFromShareOwner_dispatch, hu]⟩
    | false =>
        exact ⟨"This ShareOwner is a company",
          by simp [createUserFromShareOwner_request, hfind,
                   createUserFromShareOwner_dispatch, hu, h]⟩

/-- Witness for claim C5 at a concrete state: granting an account to the
already-linked owner 44 and to the company owner 43 is rejected without any
state change. -/
theorem claim_C5_witness :
    (∃ msg, createUserFromShareOwner_request exManager 44 exUserForm 100
        false exLinkedState = (CreateUserResult.forbidden msg, exLinkedState))
    ∧ (∃ msg, createUserFromShareOwner_request exManager 43 exUserForm 100
        false exLinkedState =
          (CreateUserResult.forbidden msg, exLinkedState)) :=
  ⟨claim_C5 exManager 44 exUserForm 100 false exLinkedState exLinkedOwner
      (by decide) (Or.inl (by decide)),
   claim_C5 exManager 43 exUserForm 100 false exLinkedState exCompanyOwner
      (by decide) (Or.inr (by decide))⟩

/-- Claim C4 counterexample: in the grant-user-account workflow the email
is sent inside the atomic block, so at this concrete input a failing email
send rolls the account creation back (final state equals the initial
state), while the same request with a working email dispatch does create
the account — refuting the claim that a failed send never rolls back the
mutation. -/
theorem claim_C4_counterexample :
    (createUserFromShareOwner_form_valid exManager exOwner exUserForm 100
        true exState).2 = exState
    ∧ (createUserFromShareOwner_form_valid exManager exOwner exUserForm 100
        false exState).2.users ≠ exState.users := by
  constructor
  · rfl
  · decide

/-- Claim C4 as amended: in batch ShareOwnership creation the notification
email is sent after the atomic block, so the committed mutation is
identical whether or not the send fails; but in the grant-user-account
workflow the email is sent inside the atomic block, so a failing send rolls
back the entire mutation. -/
theorem claim_C4_amended :
    (∀ (actor : Actor) (owner : ShareOwner) (form : CreateMultipleFormData)
       (today : Date) (nextId : Nat) (emailFails : Bool) (s : DBState),
      (shareOwnershipCreateMultiple_form_valid actor owner form today nextId
          emailFails s).2 =
        (shareOwnershipCreateMultiple_form_valid actor owner form today
          nextId false s).2)
    ∧ (∀ (actor : Actor) (owner : ShareOwner) (form : UserFormData)
         (uid : Nat) (s : DBState),
        (createUserFromShareOwner_form_valid actor owner form uid true s).2
          = s) := by
  constructor
  · intro actor owner form today nextId emailFails s
    cases emailFails <;> rfl
  · intro actor owner form uid s
    rfl

/-- Claim C6: a purely numeric free-text roster search value selects
exactly the owners of the candidate set whose id equals the value read as a
number; any other value selects exactly the owners whose display name
contains the value as a case-insensitive substring. -/
theorem claim_C6 :
    ∀ (qs : List ShareOwner) (v : String) (o : ShareOwner),
      (pyIsDigit v = true →
        (o ∈ display_name_filter qs v ↔ o ∈ qs ∧ o.id = strToNat v))
      ∧ (pyIsDigit v = false →
        (o ∈ display_name_filter qs v ↔
          o ∈ qs ∧ containsCI o.displayName v = true)) := by
  intro qs v o
  constructor
  · intro h
    simp [display_name_filter, h, List.mem_filter]
  · intro h
    simp [display_name_filter, h, qsDistinct, with_name, List.mem_dedup,
      List.mem_filter]

/-- Witness for claim C6 at concrete inputs: the numeric search "42" finds
owner 42 but not the company owner 43 matched by name, and the search
"smith" finds both by name. -/
theorem claim_C6_witness :
    (exOwner ∈ display_name_filter [exOwner, exCompanyOwner] "42"
      ∧ ¬ exCompanyOwner ∈ display_name_filter [exOwner, exCompanyOwner] "42")
    ∧ exCompanyOwner ∈ display_name_filter [exOwner, exCompanyOwner] "smith" :=
  ⟨⟨((claim_C6 [exOwner, exCompanyOwner] "42" exOwner).1 (by decide)).mpr
      (by refine ⟨?_, ?_⟩ <;> decide),
    fun hmem =>
      absurd (((claim_C6 [exOwner, exCompanyOwner] "42" exCompanyOwner).1
        (by decide)).mp hmem).2 (by decide)⟩,
   ((claim_C6 [exOwner, exCompanyOwner] "smith" exCompanyOwner).2
      (by decide)).mpr (by refine ⟨?_, ?_⟩ <;> decide)⟩

/-- Claim C7 counterexample: on a nonempty candidate set the welcome-desk
display-name filter with an empty value returns the empty set, not the
candidate set unchanged. -/
theorem claim_C7_counterexample :
    welcomeDesk_display_name_filter [exOwner] "" = []
    ∧ ([exOwner] : List ShareOwner) ≠ [] := by
  constructor
  · rfl
  · decide

/-- Claim C7 as amended: the welcome-desk display-name filter maps an empty
filter value to the empty result set (queryset.none()) rather than acting
as a no-op, while the main roster display-name filter on an empty value
leaves the candidate set unchanged (the empty substring matches every
name). -/
theorem claim_C7_amended :
    (∀ qs : List ShareOwner, welcomeDesk_display_name_filter qs "" = [])
    ∧ (∀ (qs : List ShareOwner) (o : ShareOwner),
        o ∈ display_name_filter qs "" ↔ o ∈ qs) := by
  constructor
  · intro qs
    rfl
  · intro qs o
    simp [display_name_filter, pyIsDigit, digitsOnly, qsDistinct, with_name,
      List.mem_dedup, List.mem_filter, containsCI_empty_value]

/-- Claim C8: the membership confirmation endpoint uses the num_shares
request parameter when given and otherwise the count of the owner's
currently-active ShareOwnership records, and uses the date parameter
(parsed as day.month.year) when given and otherwise today. -/
theorem claim_C8 :
    ∀ (owner : ShareOwner) (ownerships : List ShareOwnership) (today : Date)
      (params : HttpGet) (v ds : String) (d : Date),
      (params.num_shares = some v → params.date = none →
        shareowner_membership_confirmation owner ownerships today params =
          some (.fromRequest v, today))
      ∧ (params.num_shares = some v → params.date = some ds →
          parseDMY ds = some d →
          shareowner_membership_confirmation owner ownerships today params =
            some (.fromRequest v, d))
      ∧ (params.num_shares = none → params.date = none →
          shareowner_membership_confirmation owner ownerships today params =
            some (.fromActiveCount
              (get_active_share_ownerships owner ownerships today).length,
              today))
      ∧ (params.num_shares = none → params.date = some ds →
          parseDMY ds = some d →
          shareowner_membership_confirmation owner ownerships today params =
            some (.fromActiveCount
              (get_active_share_ownerships owner ownerships today).length,
              d)) := by
  intro owner ownerships today params v ds d
  refine ⟨?_, ?_, ?_, ?_⟩ <;> intro hn hd
  · simp [shareowner_membership_confirmation, hn, hd]
  · intro hp
    simp [shareowner_membership_confirmation, hn, hd, hp]
  · simp [shareowner_membership_confirmation, hn, hd]
  · intro hp
    simp [shareowner_membership_confirmation, hn, hd, hp]

/-- Witness for claim C8 at concrete inputs: with both parameters absent
the endpoint derives num_shares as the active-ownership count (one for the
sample owner) and the date as today; with both parameters given it uses
them. -/
theorem claim_C8_witness :
    shareowner_membership_confirmation exOwner [exOwnership] ⟨2023, 6, 1⟩
        ⟨none, none⟩ =
      some (.fromActiveCount 1, ⟨2023, 6, 1⟩)
    ∧ shareowner_membership_confirmation exOwner [exOwnership] ⟨2023, 6, 1⟩
        ⟨some "3", some "24.12.2022"⟩ =
      some (.fromRequest "3", ⟨2022, 12, 24⟩) :=
  ⟨(claim_C8 exOwner [exOwnership] ⟨2023, 6, 1⟩ ⟨none, none⟩ "" ""
      ⟨0, 0, 0⟩).2.2.1 rfl rfl,
   (claim_C8 exOwner [exOwnership] ⟨2023, 6, 1⟩ ⟨some "3", some "24.12.2022"⟩
      "3" "24.12.2022" ⟨2022, 12, 24⟩).2.1 rfl rfl (by decide)⟩

/-- Claim C9: a successful grant of a user account appends exactly the new
account built by copying the owner's identity fields (with the name fields
passing through the form, initialised from that copy), links the owner to
the new account and blanks every owner-side identity field, leaving the
linked account as the only holder of the identity data. -/
theorem claim_C9 :
    ∀ (actor : Actor) (owner : ShareOwner) (form : UserFormData) (uid : Nat)
      (s : DBState),
      (createUserFromShareOwner_form_valid actor owner form uid false
          s).2.users = s.users ++ [mkNewUser owner form uid]
      ∧ (mkNewUser owner form uid).info.street = owner.info.street
      ∧ (mkNewUser owner form uid).info.postcode = owner.info.postcode
      ∧ (mkNewUser owner form uid).info.city = owner.info.city
      ∧ (mkNewUser owner form uid).info.email = owner.info.email
      ∧ (mkNewUser owner form uid).info.phoneNumber = owner.info.phoneNumber
      ∧ (form.firstName = owner.info.firstName →
          form.lastName = owner.info.lastName →
          (mkNewUser owner form uid).info = owner.info)
      ∧ (createUserFromShareOwner_form_valid actor owner form uid false
          s).2.owners =
          s.owners.map (fun o =>
            if o.id == owner.id then
              { o with userId := some uid, info := blankUserInfo }
            else o) := by
  intro actor owner form uid s
  refine ⟨rfl, rfl, rfl, rfl, rfl, rfl, ?_, rfl⟩
  intro h1 h2
  simp [mkNewUser, copy_user_info, h1, h2]

/-- Witness for claim C9 at a concrete state: with the form left at its
initial values the created account carries exactly the owner's identity
fields. -/
theorem claim_C9_witness :
    (mkNewUser exOwner exUserForm 100).info = exOwner.info :=
  (claim_C9 exManager exOwner exUserForm 100 exState).2.2.2.2.2.2.1 rfl rfl

/-- Claim C10: when the filtered member roster holds exactly one owner the
list view redirects to that owner's page; for any other result count it
renders the list. -/
theorem claim_C10 :
    ∀ (filtered : List ShareOwner) (o : ShareOwner),
      (filtered = [o] →
        shareOwnerListView_get filtered = .redirectTo o.id)
      ∧ (filtered.length ≠ 1 →
        shareOwnerListView_get filtered = .renderList filtered) := by
  intro filtered o
  constructor
  · intro h
    subst h
    rfl
  · intro h
    simp [shareOwnerListView_get, h]

/-- Witness for claim C10 at concrete inputs: a single-owner result
redirects to that owner, the two-owner result renders the list. -/
theorem claim_C10_witness :
    shareOwnerListView_get [exOwner] = .redirectTo exOwner.id
    ∧ shareOwnerListView_get [exOwner, exCompanyOwner] =
        .renderList [exOwner, exCompanyOwner] :=
  ⟨(claim_C10 [exOwner] exOwner).1 rfl,
   (claim_C10 [exOwner, exCompanyOwner] exOwner).2 (by decide)⟩

end Tapir
